import Mathlib

set_option autoImplicit false

/-!
Shallow embedding of the orchestration core of the agent repository
(src/agent: registry.py, state.py, tool_exec.py, controller.py,
planner.py, finalize.py, graph.py) and proofs about the frozen claims.

Python dicts parsed from JSON are modelled by an ordered association
list inside a small `Json` value type; machine behaviour that can raise
(json.loads, attribute errors on non-dict values) is modelled with
`Except String`.
-/

/-- JSON values as produced by Python json.loads. Numbers keep their
source lexeme: no claim inspects numeric magnitudes, and object keys keep
insertion order like Python dicts. -/
inductive Json where
  | null
  | bool (b : Bool)
  | num (lexeme : String)
  | str (s : String)
  | arr (xs : List Json)
  | obj (kvs : List (String × Json))

instance : Inhabited Json := ⟨Json.null⟩

/-- First binding of a key in an ordered association list (Python dict lookup;
parsing keeps keys unique). -/
def jget (kvs : List (String × Json)) (k : String) : Option Json :=
  match kvs with
  | [] => none
  | (k0, v) :: rest => if k0 = k then some v else jget rest k

/-- Key membership in an ordered association list. -/
def jhas (kvs : List (String × Json)) (k : String) : Bool :=
  match kvs with
  | [] => false
  | (k0, _) :: rest => k0 = k || jhas rest k

/-- Python dict assignment d[k] = v: replace in place, else append. -/
def jset (kvs : List (String × Json)) (k : String) (v : Json) : List (String × Json) :=
  match kvs with
  | [] => [(k, v)]
  | (k0, v0) :: rest => if k0 = k then (k0, v) :: rest else (k0, v0) :: jset rest k v

/-- A numeric lexeme denotes zero iff its mantissa (the part before any
exponent marker) has no nonzero digit. -/
def numLexemeIsZero (s : String) : Bool :=
  let mantissa := s.data.takeWhile (fun c => c ≠ 'e' ∧ c ≠ 'E')
  mantissa.all (fun c => ¬ (c.isDigit ∧ c ≠ '0'))

/-- Python truthiness of a JSON-decoded value. -/
def pyTruthy (j : Json) : Bool :=
  match j with
  | .null => false
  | .bool b => b
  | .num lex => ¬ numLexemeIsZero lex
  | .str s => s ≠ ""
  | .arr xs => ¬ xs.isEmpty
  | .obj kvs => ¬ kvs.isEmpty

mutual

/-- Python repr() of a JSON-decoded value (strings quoted), used inside
container renderings. -/
def pyRepr (j : Json) : String :=
  match j with
  | .null => "None"
  | .bool b => if b then "True" else "False"
  | .num lex => lex
  | .str s => "\x27" ++ s ++ "\x27"
  | .arr xs => "[" ++ pyReprList xs ++ "]"
  | .obj kvs => "\x7b" ++ pyReprObj kvs ++ "\x7d"

/-- Array elements rendered as in Python list repr. -/
def pyReprList (xs : List Json) : String :=
  match xs with
  | [] => ""
  | [x] => pyRepr x
  | x :: rest => pyRepr x ++ ", " ++ pyReprList rest

/-- Object members rendered as in Python dict repr. -/
def pyReprObj (kvs : List (String × Json)) : String :=
  match kvs with
  | [] => ""
  | [(k, v)] => "\x27" ++ k ++ "\x27: " ++ pyRepr v
  | (k, v) :: rest => "\x27" ++ k ++ "\x27: " ++ pyRepr v ++ ", " ++ pyReprObj rest

end

/-- Python str() of a JSON-decoded value: identity on strings, repr-style
rendering of containers, True/False/None for the constants. -/
def pyStr (j : Json) : String :=
  match j with
  | .str s => s
  | other => pyRepr other

/-- Python str() of an optional value (None prints as None). -/
def pyStrOpt (j : Option Json) : String :=
  match j with
  | none => "None"
  | some v => pyStr v

/-- needle occurs as a contiguous substring of the character list. -/
def listSub (needle hay : List Char) : Bool :=
  match hay with
  | [] => needle.isEmpty
  | _ :: rest => needle.isPrefixOf hay || listSub needle rest

/-- Python substring containment on strings. -/
def substr (needle hay : String) : Bool :=
  listSub needle.data hay.data

/-- Python membership test x in j for a decoded JSON value; raises TypeError
on non-container values, exactly like Python. -/
def pyContains (needle : String) (j : Json) : Except String Bool :=
  match j with
  | .obj kvs => .ok (jhas kvs needle)
  | .arr xs =>
    .ok (xs.any (fun x =>
      match x with
      | .str s => s = needle
      | _ => false))
  | .str s => .ok (substr needle s)
  | _ => .error "TypeError: argument of membership test is not iterable"

/-- Python str.startswith for a single candidate. -/
def strStarts (p s : String) : Bool :=
  p.data.isPrefixOf s.data

/-- JSON whitespace accepted by json.loads. -/
def jsonWs (c : Char) : Bool :=
  c = ' ' || c = '\t' || c = '\n' || c = '\r'

/-- Python str.strip() whitespace. -/
def pyWs (c : Char) : Bool :=
  c = ' ' || c = '\t' || c = '\n' || c = '\r' || c = '\x0b' || c = '\x0c'

/-- Python str.strip(): drop leading and trailing whitespace. -/
def pyStrip (s : String) : String :=
  ⟨((s.data.dropWhile pyWs).reverse.dropWhile pyWs).reverse⟩

/-- Python str.lower(), on the ASCII and Latin-1 letters that appear in the
repository's keyword tables. -/
def pyLowerChar (c : Char) : Char :=
  if 'A' ≤ c ∧ c ≤ 'Z' then Char.ofNat (c.toNat + 32)
  else if 0xC0 ≤ c.toNat ∧ c.toNat ≤ 0xDE ∧ c.toNat ≠ 0xD7 then Char.ofNat (c.toNat + 32)
  else c

/-- Python str.upper() on the same character range. -/
def pyUpperChar (c : Char) : Char :=
  if 'a' ≤ c ∧ c ≤ 'z' then Char.ofNat (c.toNat - 32)
  else if 0xE0 ≤ c.toNat ∧ c.toNat ≤ 0xFE ∧ c.toNat ≠ 0xF7 then Char.ofNat (c.toNat - 32)
  else c

/-- Lower-cased string. -/
def pyLower (s : String) : String :=
  ⟨s.data.map pyLowerChar⟩

/-- Upper-cased string. -/
def pyUpper (s : String) : String :=
  ⟨s.data.map pyUpperChar⟩

/-! ## json.loads

A strict JSON reader over the character list, fuelled by the input length
(every recursive descent consumes at least one character). -/

/-- Read the body of a JSON string after the opening quote; supports the
standard escapes. Returns the decoded text and the rest after the closing
quote. -/
def jsonReadString (fuel : Nat) (cs : List Char) : Except String (String × List Char) :=
  match fuel with
  | 0 => .error "json: fuel"
  | fuel + 1 =>
    match cs with
    | [] => .error "json: unterminated string"
    | '"' :: rest => .ok ("", rest)
    | '\\' :: e :: rest =>
      let cont (c : Char) (rem : List Char) : Except String (String × List Char) :=
        match jsonReadString fuel rem with
        | .ok (s, rest2) => .ok (⟨c :: s.data⟩, rest2)
        | .error m => .error m
      match e with
      | '"' => cont '"' rest
      | '\\' => cont '\\' rest
      | '/' => cont '/' rest
      | 'b' => cont '\x08' rest
      | 'f' => cont '\x0c' rest
      | 'n' => cont '\n' rest
      | 'r' => cont '\r' rest
      | 't' => cont '\t' rest
      | 'u' =>
        match rest with
        | h1 :: h2 :: h3 :: h4 :: rest2 =>
          let hex (c : Char) : Option Nat :=
            if c.isDigit then some (c.toNat - 48)
            else if 'a' ≤ c ∧ c ≤ 'f' then some (c.toNat - 87)
            else if 'A' ≤ c ∧ c ≤ 'F' then some (c.toNat - 55)
            else none
          match hex h1, hex h2, hex h3, hex h4 with
          | some a, some b, some c, some d => cont (Char.ofNat (((a * 16 + b) * 16 + c) * 16 + d)) rest2
          | _, _, _, _ => .error "json: bad unicode escape"
        | _ => .error "json: bad unicode escape"
      | _ => .error "json: bad escape"
    | c :: rest =>
      if c.toNat < 0x20 then .error "json: control character in string"
      else
        match jsonReadString fuel rest with
        | .ok (s, rest2) => .ok (⟨c :: s.data⟩, rest2)
        | .error m => .error m

/-- Read a JSON number lexeme (strict grammar: -? int frac? exp?). -/
def jsonReadNumber (cs : List Char) : Except String (String × List Char) :=
  let (sign, afterSign) :=
    match cs with
    | '-' :: rest => (['-'], rest)
    | _ => (([] : List Char), cs)
  match afterSign with
  | [] => .error "json: bad number"
  | d :: _ =>
    if ¬ d.isDigit then .error "json: bad number"
    else
      let intPart := afterSign.takeWhile Char.isDigit
      let afterInt := afterSign.dropWhile Char.isDigit
      if d = '0' ∧ intPart.length > 1 then .error "json: bad number"
      else
        let (fracPart, afterFrac) :=
          match afterInt with
          | '.' :: rest =>
            let digs := rest.takeWhile Char.isDigit
            if digs.isEmpty then (([] : List Char), afterInt)
            else ('.' :: digs, rest.dropWhile Char.isDigit)
          | _ => (([] : List Char), afterInt)
        if afterFrac.headD ' ' = '.' then .error "json: bad number"
        else
          let (expPart, afterExp) :=
            match afterFrac with
            | e :: rest =>
              if e = 'e' ∨ e = 'E' then
                match rest with
                | s :: rest2 =>
                  if s = '+' ∨ s = '-' then
                    let digs := rest2.takeWhile Char.isDigit
                    if digs.isEmpty then (([] : List Char), afterFrac)
                    else (e :: s :: digs, rest2.dropWhile Char.isDigit)
                  else
                    let digs := rest.takeWhile Char.isDigit
                    if digs.isEmpty then (([] : List Char), afterFrac)
                    else (e :: digs, rest.dropWhile Char.isDigit)
                | [] => (([] : List Char), afterFrac)
              else (([] : List Char), afterFrac)
            | [] => (([] : List Char), afterFrac)
          .ok (⟨sign ++ intPart ++ fracPart ++ expPart⟩, afterExp)

mutual

/-- Read one JSON value. -/
def jsonReadValue (fuel : Nat) (cs : List Char) : Except String (Json × List Char) :=
  match fuel with
  | 0 => .error "json: fuel"
  | fuel + 1 =>
    let cs := cs.dropWhile jsonWs
    match cs with
    | [] => .error "json: expecting value"
    | c :: rest =>
      if c = '"' then
        match jsonReadString fuel rest with
        | .ok (s, rest2) => .ok (.str s, rest2)
        | .error m => .error m
      else if c = '{' then jsonReadMembers fuel (rest.dropWhile jsonWs) true []
      else if c = '[' then jsonReadElements fuel (rest.dropWhile jsonWs) true []
      else if c = 't' then
        if rest.take 3 = ['r', 'u', 'e'] then .ok (.bool true, rest.drop 3)
        else .error "json: expecting value"
      else if c = 'f' then
        if rest.take 4 = ['a', 'l', 's', 'e'] then .ok (.bool false, rest.drop 4)
        else .error "json: expecting value"
      else if c = 'n' then
        if rest.take 3 = ['u', 'l', 'l'] then .ok (.null, rest.drop 3)
        else .error "json: expecting value"
      else if c = '-' ∨ c.isDigit then
        match jsonReadNumber cs with
        | .ok (lex, rest2) => .ok (.num lex, rest2)
        | .error m => .error m
      else .error "json: expecting value"

/-- Read object members after the opening brace (whitespace already
skipped); atStart is true before the first member. -/
def jsonReadMembers (fuel : Nat) (cs : List Char) (atStart : Bool)
    (acc : List (String × Json)) : Except String (Json × List Char) :=
  match fuel with
  | 0 => .error "json: fuel"
  | fuel + 1 =>
    match cs with
    | '}' :: rest =>
      if atStart then .ok (.obj acc, rest)
      else .error "json: expecting property name"
    | '"' :: rest =>
      match jsonReadString fuel rest with
      | .error m => .error m
      | .ok (k, rest2) =>
        match rest2.dropWhile jsonWs with
        | ':' :: rest3 =>
          match jsonReadValue fuel rest3 with
          | .error m => .error m
          | .ok (v, rest4) =>
            let acc := jset acc k v
            match rest4.dropWhile jsonWs with
            | ',' :: rest5 =>
              match (rest5.dropWhile jsonWs) with
              | '"' :: tail => jsonReadMembers fuel ('"' :: tail) false acc
              | _ => .error "json: expecting property name"
            | '}' :: rest5 => .ok (.obj acc, rest5)
            | _ => .error "json: expecting comma delimiter"
        | _ => .error "json: expecting colon delimiter"
    | _ => .error "json: expecting property name"

/-- Read array elements after the opening bracket (whitespace already
skipped). -/
def jsonReadElements (fuel : Nat) (cs : List Char) (atStart : Bool)
    (acc : List Json) : Except String (Json × List Char) :=
  match fuel with
  | 0 => .error "json: fuel"
  | fuel + 1 =>
    match cs with
    | [] => .error "json: expecting value"
    | ']' :: rest =>
      if atStart then .ok (.arr acc.reverse, rest)
      else .error "json: expecting value"
    | _ =>
      match jsonReadValue fuel cs with
      | .error m => .error m
      | .ok (v, rest2) =>
        match rest2.dropWhile jsonWs with
        | ',' :: rest3 => jsonReadElements fuel (rest3.dropWhile jsonWs) false (v :: acc)
        | ']' :: rest3 => .ok (.arr (v :: acc).reverse, rest3)
        | _ => .error "json: expecting comma delimiter"

end

/-- Python json.loads: parse one value, demand nothing but whitespace after. -/
def jsonLoads (s : String) : Except String Json :=
  match jsonReadValue (s.length + 2) s.data with
  | .error m => .error m
  | .ok (v, rest) =>
    if (rest.dropWhile jsonWs).isEmpty then .ok v
    else .error "json: extra data"

/-- The best-effort payload extraction re.search(r"\x7b.*\x7d", raw, re.S):
with a greedy dot-matches-all body this is the span from the first opening
brace to the last closing brace, when the latter comes after the former. -/
def extractBraces (s : String) : Option String :=
  let cs := s.data
  match cs.findIdx? (fun c => c = '{') with
  | none => none
  | some i =>
    match cs.reverse.findIdx? (fun c => c = '}') with
    | none => none
    | some rj =>
      let j := cs.length - 1 - rj
      if i < j then some ⟨(cs.drop i).take (j - i + 1)⟩ else none

/-! ## finalize.py -/

/-- Number-word vocabulary of finalize.py (_NUM_WORDS). -/
def numWordsTable : List (String × Nat) :=
  [("zero", 0), ("one", 1), ("two", 2), ("three", 3), ("four", 4), ("five", 5),
   ("six", 6), ("seven", 7), ("eight", 8), ("nine", 9), ("ten", 10),
   ("eleven", 11), ("twelve", 12), ("thirteen", 13), ("fourteen", 14),
   ("fifteen", 15), ("sixteen", 16), ("seventeen", 17), ("eighteen", 18),
   ("nineteen", 19), ("twenty", 20), ("thirty", 30), ("forty", 40),
   ("fifty", 50), ("sixty", 60), ("seventy", 70), ("eighty", 80), ("ninety", 90)]

/-- Lookup in the number-word vocabulary. -/
def numWordLookup (w : String) : Option Nat :=
  (numWordsTable.find? (fun kv => kv.1 = w)).map (fun kv => kv.2)

/-- Split a character list at every delimiter character; empty segments are
produced freely and dropped by the callers, which matches what the
repository's regex splits with a + quantifier produce after their own
empty-segment filtering. -/
def splitAnyChar (isDelim : Char → Bool) (cs : List Char) : List (List Char) :=
  match cs with
  | [] => [[]]
  | c :: rest =>
    if isDelim c then [] :: splitAnyChar isDelim rest
    else
      match splitAnyChar isDelim rest with
      | seg :: segs => (c :: seg) :: segs
      | [] => [[c]]

/-- Split on runs of whitespace or hyphens, keeping nonempty parts, like
re.split(r"[\s-]+") followed by the nonempty filter. -/
def splitWordParts (cs : List Char) : List (List Char) :=
  (splitAnyChar (fun c => pyWs c || c = '-') cs).filter (fun l => ¬ l.isEmpty)

/-- finalize._words_to_int_simple: lower, strip, dashes to hyphens, split,
then additively sum vocabulary words; None when any part is unknown.
An input with no parts sums to 0. -/
def wordsToIntSimple (text : String) : Option Nat :=
  let t := pyStrip (pyLower text)
  let t := t.data.map (fun c => if c = '–' ∨ c = '—' then '-' else c)
  let parts := splitWordParts t
  parts.foldl
    (fun acc p =>
      match acc, numWordLookup ⟨p⟩ with
      | some n, some v => some (n + v)
      | _, _ => none)
    (some 0)

/-- Greedy match of -?\d+(?:\.\d+)? anchored at the head of the list;
returns the matched lexeme. -/
def numAt (cs : List Char) : Option (List Char) :=
  let core (body : List Char) : Option (List Char) :=
    match body with
    | c :: _ =>
      if c.isDigit then
        let ds := body.takeWhile Char.isDigit
        let rest := body.dropWhile Char.isDigit
        match rest with
        | '.' :: rest2 =>
          let fs := rest2.takeWhile Char.isDigit
          if fs.isEmpty then some ds else some (ds ++ '.' :: fs)
        | _ => some ds
      else none
    | [] => none
  match cs with
  | '-' :: rest => (core rest).map (fun r => '-' :: r)
  | _ => core cs

/-- Leftmost match of -?\d+(?:\.\d+)? in the list (re.search semantics). -/
def searchNumber (cs : List Char) : Option (List Char) :=
  match cs with
  | [] => none
  | _ :: rest =>
    match numAt cs with
    | some r => some r
    | none => searchNumber rest

/-- The lexeme is an integer (fullmatch -?\d+): no decimal point. -/
def lexIsInt (v : List Char) : Bool :=
  v.all (fun c => c ≠ '.')

/-- Python str(int(v)) for a lexeme matching -?\d+: canonical sign and no
leading zeros. -/
def strOfIntLexeme (v : List Char) : String :=
  let (neg, digits) :=
    match v with
    | '-' :: rest => (true, rest)
    | _ => (false, v)
  let stripped := digits.dropWhile (fun c => c = '0')
  if stripped.isEmpty then "0"
  else if neg then ⟨'-' :: stripped⟩ else ⟨stripped⟩

/-- finalize._numeric_only: first signed number of the comma-stripped text,
canonicalized through int() when integral; fall back to number words. -/
def numericOnly (s : String) : Option String :=
  let s := pyStrip s
  let noCommas := s.data.filter (fun c => c ≠ ',')
  match searchNumber noCommas with
  | some v => if lexIsInt v then some (strOfIntLexeme v) else some ⟨v⟩
  | none =>
    match wordsToIntSimple s with
    | some w => some (toString w)
    | none => none

/-- Character class [A-Za-zÀ-ÖØ-öø-ÿ] of finalize._first_name_only. -/
def isNameAlpha (c : Char) : Bool :=
  ('A' ≤ c ∧ c ≤ 'Z') || ('a' ≤ c ∧ c ≤ 'z') ||
  (0xC0 ≤ c.toNat ∧ c.toNat ≤ 0xD6) || (0xD8 ≤ c.toNat ∧ c.toNat ≤ 0xF6) ||
  (0xF8 ≤ c.toNat ∧ c.toNat ≤ 0xFF)

/-- First maximal run of characters satisfying p. -/
def firstRun (p : Char → Bool) (cs : List Char) : Option (List Char) :=
  match cs with
  | [] => none
  | c :: rest =>
    if p c then some (c :: rest.takeWhile p)
    else firstRun p rest

/-- finalize._first_name_only. -/
def firstNameOnly (s : String) : String :=
  match firstRun isNameAlpha s.data with
  | some run => ⟨run⟩
  | none => pyStrip s

/-- Word character for the \b boundary (letters including the Latin-1
letter range, digits, underscore). -/
def isWordChar (c : Char) : Bool :=
  isNameAlpha c || c.isDigit || c = '_'

/-- Uppercase ASCII letter. -/
def isUpperAZ (c : Char) : Bool :=
  'A' ≤ c ∧ c ≤ 'Z'

/-- Scan for the first standalone [A-Z]{3} token (word boundaries on both
sides), walking the upper-cased text; prev is the character before the
current position. -/
def iocScanAux (prev : Option Char) (cs : List Char) : Option String :=
  match cs with
  | a :: b :: c :: rest =>
    let beforeOk :=
      match prev with
      | none => true
      | some p => ¬ isWordChar p
    let afterOk :=
      match rest.head? with
      | none => true
      | some n => ¬ isWordChar n
    if isUpperAZ a && isUpperAZ b && isUpperAZ c && beforeOk && afterOk then some ⟨[a, b, c]⟩
    else iocScanAux (some a) (b :: c :: rest)
  | _ => none

/-- finalize._ioc_code_only: first standalone three-letter uppercase token
of the upper-cased text. -/
def iocCodeOnly (s : String) : Option String :=
  iocScanAux none (pyUpper s).data

/-- Split on the CSV delimiters of finalize._csv_normalize (comma, newline,
semicolon); empty segments are produced freely, the caller drops them. -/
def splitCsv (cs : List Char) : List (List Char) :=
  let isDelim (c : Char) : Bool := c = ',' || c = '\n' || c = ';'
  match cs with
  | [] => [[]]
  | c :: rest =>
    if isDelim c then [] :: splitCsv rest
    else
      match splitCsv rest with
      | seg :: segs => (c :: seg) :: segs
      | [] => [[c]]

/-- Code-point lexicographic comparison of character lists (Python string
less-or-equal). -/
def lexLe (a b : List Char) : Bool :=
  match a, b with
  | [], _ => true
  | _ :: _, [] => false
  | x :: xs, y :: ys =>
    if x.toNat < y.toNat then true
    else if y.toNat < x.toNat then false
    else lexLe xs ys

/-- Python sorted key comparison with key=str.casefold. -/
def casefoldLe (a b : String) : Bool :=
  lexLe (pyLower a).data (pyLower b).data

/-- Stable insertion of x after every already-placed element with a
less-or-equal key. -/
def insSorted (x : String) (l : List String) : List String :=
  match l with
  | [] => [x]
  | y :: rest =>
    if casefoldLe y x then y :: insSorted x rest
    else x :: y :: rest

/-- Stable sort (Python sorted with key=str.casefold). -/
def sortedCasefold (l : List String) : List String :=
  l.foldl (fun acc x => insSorted x acc) []

/-- finalize._csv_normalize. -/
def csvNormalize (itemsText : String) (alphabetize : Bool) : String :=
  let items := (splitCsv itemsText.data).map (fun l => pyStrip ⟨l⟩)
  let items := items.filter (fun s => s ≠ "")
  let items := if alphabetize then sortedCasefold items else items
  String.intercalate ", " items

/-- Decimal digits of a character list as a natural number (parse of a
nonempty digit run). -/
def digitsToNat (ds : List Char) : Nat :=
  ds.foldl (fun acc c => acc * 10 + (c.toNat - 48)) 0

/-- Format the first-number lexeme as Python f"$\x7bfloat(v):.2f\x7d" does:
two fraction digits with round-half-even, sign kept. -/
def formatUsd (v : List Char) : String :=
  let (neg, body) :=
    match v with
    | '-' :: rest => (true, rest)
    | _ => (false, v)
  let intDigits := body.takeWhile Char.isDigit
  let fracDigits :=
    match body.dropWhile Char.isDigit with
    | '.' :: fs => fs
    | _ => []
  let intNat := digitsToNat intDigits
  let frac2 := digitsToNat ((fracDigits ++ ['0', '0']).take 2)
  let rest := fracDigits.drop 2
  let roundUp :=
    match rest with
    | [] => false
    | d :: tailDigits =>
      if d.toNat > 53 then true
      else if d.toNat < 53 then false
      else if tailDigits.any (fun c => c ≠ '0') then true
      else frac2 % 2 = 1
  let cents := intNat * 100 + frac2 + (if roundUp then 1 else 0)
  let fracPart := cents % 100
  let fracStr := if fracPart < 10 then "0" ++ toString fracPart else toString fracPart
  (if neg then "-" else "") ++ toString (cents / 100) ++ "." ++ fracStr

/-- finalize._usd_two_decimals. -/
def usdTwoDecimals (s : String) : Option String :=
  let noCommas := s.data.filter (fun c => c ≠ ',')
  match searchNumber noCommas with
  | none => none
  | some v => some ("$" ++ formatUsd v)

/-! ### Standard-algebraic-notation extraction

Faithful backtracking match of
\b(O-O(-O)?|[KQRBN]?[a-h]?[1-8]?x?[a-h][1-8](=[QRBN])?[+#]?)\b
with re.search semantics (leftmost start, greedy options, first
alternative preferred). -/

/-- Character at an index. -/
def cAt (cs : List Char) (i : Nat) : Option Char :=
  cs.get? i

/-- Wordness of the character at an index (out of range counts non-word). -/
def isWordAt (cs : List Char) (i : Nat) : Bool :=
  match cAt cs i with
  | some c => isWordChar c
  | none => false

/-- Word boundary \b at position i. -/
def sanBoundary (cs : List Char) (i : Nat) : Bool :=
  let before :=
    match i with
    | 0 => false
    | j + 1 => isWordAt cs j
  before != isWordAt cs i

/-- Greedy optional single character with backtracking continuation. -/
def sanOptChar (p : Char → Bool) (cs : List Char) (i : Nat)
    (k : Nat → Option Nat) : Option Nat :=
  (match cAt cs i with
   | some c => if p c then k (i + 1) else none
   | none => none) <|> k i

/-- Trailing word boundary. -/
def sanBnd (cs : List Char) (j : Nat) : Option Nat :=
  if sanBoundary cs j then some j else none

/-- Optional check or mate suffix then the trailing boundary. -/
def sanCheckOpt (cs : List Char) (j : Nat) : Option Nat :=
  sanOptChar (fun c => c = '+' || c = '#') cs j (sanBnd cs)

/-- File letter a-h. -/
def sanIsFile (c : Char) : Bool :=
  'a' ≤ c ∧ c ≤ 'h'

/-- Rank digit 1-8. -/
def sanIsRank (c : Char) : Bool :=
  '1' ≤ c ∧ c ≤ '8'

/-- Piece letter KQRBN. -/
def sanIsPiece (c : Char) : Bool :=
  c = 'K' || c = 'Q' || c = 'R' || c = 'B' || c = 'N'

/-- Optional promotion =[QRBN], then suffix. -/
def sanPromoOpt (cs : List Char) (j : Nat) : Option Nat :=
  (match cAt cs j, cAt cs (j + 1) with
   | some e, some c =>
     if e = '=' ∧ sanIsPiece c then sanCheckOpt cs (j + 2) else none
   | _, _ => none) <|> sanCheckOpt cs j

/-- Required destination square [a-h][1-8], then the optional suffixes. -/
def sanDest (cs : List Char) (j : Nat) : Option Nat :=
  match cAt cs j, cAt cs (j + 1) with
  | some f, some r =>
    if sanIsFile f ∧ sanIsRank r then sanPromoOpt cs (j + 2) else none
  | _, _ => none

/-- Piece-move alternative with its greedy optional prefixes. -/
def sanPieceAlt (cs : List Char) (i : Nat) : Option Nat :=
  sanOptChar sanIsPiece cs i (fun j1 =>
    sanOptChar sanIsFile cs j1 (fun j2 =>
      sanOptChar sanIsRank cs j2 (fun j3 =>
        sanOptChar (fun c => c = 'x') cs j3 (fun j4 => sanDest cs j4))))

/-- Castling alternative O-O(-O)? with trailing boundary. -/
def sanCastle (cs : List Char) (i : Nat) : Option Nat :=
  if cAt cs i = some 'O' ∧ cAt cs (i + 1) = some '-' ∧ cAt cs (i + 2) = some 'O' then
    (if cAt cs (i + 3) = some '-' ∧ cAt cs (i + 4) = some 'O' then sanBnd cs (i + 5)
     else none) <|> sanBnd cs (i + 3)
  else none

/-- Full pattern anchored at position i. -/
def sanAt (cs : List Char) (i : Nat) : Option Nat :=
  if sanBoundary cs i then sanCastle cs i <|> sanPieceAlt cs i
  else none

/-- Leftmost search over all start positions. -/
def sanScan (cs : List Char) (i fuel : Nat) : Option (Nat × Nat) :=
  match fuel with
  | 0 => none
  | fuel + 1 =>
    match sanAt cs i with
    | some j => some (i, j)
    | none => if i ≥ cs.length then none else sanScan cs (i + 1) fuel

/-- finalize._san_only. -/
def sanOnly (s : String) : Option String :=
  match sanScan s.data 0 (s.length + 2) with
  | some (i, j) => some ⟨(s.data.drop i).take (j - i)⟩
  | none => none

/-! ### normalize_answer and the plausibility check -/

/-- Numeric-shape cues of finalize.normalize_answer rule 1. -/
def numericCue (q : String) : Bool :=
  substr "how many" q || substr "highest number" q || substr "final numeric output" q ||
  substr "number of" q || substr "least number" q

/-- List-shape cues of the CSV rule in normalize_answer. -/
def csvCueNorm (q : String) : Bool :=
  substr "comma separated" q || substr "comma-separated" q ||
  substr "comma delimited" q || substr "comma-delimited" q ||
  substr "ascending order" q || substr "alphabetize" q

/-- Ordering cue inside the CSV rule. -/
def alphaCue (q : String) : Bool :=
  substr "alphabetize" q || substr "ascending order" q

/-- Currency cue. -/
def usdCue (q : String) : Bool :=
  substr "usd" q ∧ (substr "two decimal" q ∨ substr "two decimals" q)

/-- Chess-notation cue. -/
def sanCue (q : String) : Bool :=
  substr "algebraic notation" q || substr "san" q

/-- Rules after the currency rule (chess rule, then the unchanged default). -/
def normalizeRest3 (q a : String) : String :=
  if sanCue q then
    match sanOnly a with
    | some m => m
    | none => a
  else a

/-- Rules after the IOC rule (CSV rule, currency rule, then the rest). -/
def normalizeRest2 (q a : String) : String :=
  if csvCueNorm q then csvNormalize a (alphaCue q)
  else if usdCue q then
    match usdTwoDecimals a with
    | some u => u
    | none => normalizeRest3 q a
  else normalizeRest3 q a

/-- Rules after the numeric rule (first-name rule, IOC rule, then the rest). -/
def normalizeRest (q a : String) : String :=
  if substr "give only the first name" q then firstNameOnly a
  else if substr "ioc country code" q then
    match iocCodeOnly a with
    | some code => code
    | none => normalizeRest2 q a
  else normalizeRest2 q a

/-- finalize.normalize_answer: keyword-routed reshaping of the text, rules
tried in the fixed source order. -/
def normalize_answer (question text : String) : String :=
  let q := pyLower question
  let a := pyStrip text
  if numericCue q then
    match numericOnly a with
    | some n => n
    | none => normalizeRest q a
  else normalizeRest q a

/-- fullmatch -?\d+(?:\.\d+)?. -/
def fullmatchNumber (a : String) : Bool :=
  match numAt a.data with
  | some r => r.length = a.data.length ∧ a.data ≠ []
  | none => false

/-- fullmatch [A-Z]{3}. -/
def fullmatch3Caps (a : String) : Bool :=
  a.data.length = 3 ∧ a.data.all isUpperAZ

/-- fullmatch \$\d+\.\d\x7b2\x7d. -/
def fullmatchUsd (a : String) : Bool :=
  match a.data with
  | '$' :: rest =>
    let ds := rest.takeWhile Char.isDigit
    let tail := rest.dropWhile Char.isDigit
    (¬ ds.isEmpty) &&
      (match tail with
       | ['.', d1, d2] => d1.isDigit && d2.isDigit
       | _ => false)
  | _ => false

/-- fullmatch of the first-name character class. -/
def fullmatchName (a : String) : Bool :=
  (¬ a.data.isEmpty) ∧ a.data.all isNameAlpha

/-- CSV cues of is_plausible_for_question (note: no ordering cues here). -/
def csvCuePlaus (q : String) : Bool :=
  substr "comma separated" q || substr "comma-separated" q ||
  substr "comma delimited" q || substr "comma-delimited" q

/-- finalize.is_plausible_for_question: shape validation with its own cue
order (numeric, IOC, chess, CSV, currency, first name, nonempty default). -/
def is_plausible_for_question (question normalized : String) : Bool :=
  let q := pyLower question
  let a := pyStrip normalized
  if numericCue q then fullmatchNumber a
  else if substr "ioc country code" q then fullmatch3Caps a
  else if sanCue q then (sanOnly a).isSome
  else if csvCuePlaus q then substr "," a
  else if usdCue q then fullmatchUsd a
  else if substr "give only the first name" q then fullmatchName a
  else a ≠ ""

/-- finalize.early_finish. -/
def early_finish (question observation currentAnswer : String) : Bool × String :=
  let candidate := if pyStrip observation ≠ "" then pyStrip observation else currentAnswer
  if candidate = "" then (false, "")
  else
    let final := normalize_answer question candidate
    (is_plausible_for_question question final, final)

/-! ## state.py and registry.py -/

/-- One scratchpad Turn (state.py). The runtime wall-clock duration is not
modelled and is recorded as 0 milliseconds. -/
structure Turn where
  thought : String
  action : String
  params : Json
  observation : String
  success : Bool
  error : String
  duration_ms : Nat

/-- One plan step (state.py PlanStep). -/
structure PlanStep where
  goal : String
  tool_hint : String
  params_hint : Json

/-- The task State threaded through the graph (state.py, plus the
early_stop key that make_initial_state adds). next_action holds the raw
decoded decision value. -/
structure AgentState where
  task_id : String
  question : String
  file_name : String
  plan : List PlanStep
  plan_cursor : Nat
  scratchpad : List Turn
  next_action : Option Json
  step : Nat
  max_steps : Nat
  answer : String
  allowed_tools : Option (List String)
  last_tool : Option Json
  auto_finish_after_tool : Bool
  no_progress_count : Nat
  early_stop : Bool
deriving Inhabited

/-- A registered capability: the Python callable's parameter names (as in
inspect.signature, including the leading state parameter), whether it
declares **kwargs, and its behaviour. Raising is modelled by the error
constructor of the result. -/
structure ToolSpec where
  paramNames : List String
  acceptsKwargs : Bool
  run : AgentState → List (String × Json) → Except String String

/-- The process-wide tool registry, passed explicitly. -/
def Registry := List (String × ToolSpec)

/-- TOOL_REGISTRY.get for a string name. -/
def regGet (reg : Registry) (name : String) : Option ToolSpec :=
  match reg with
  | [] => none
  | (n, t) :: rest => if n = name then some t else regGet rest name

/-- name in TOOL_REGISTRY. -/
def regHas (reg : Registry) (name : String) : Bool :=
  (regGet reg name).isSome

/-- registry.tool_allowed: registered AND (no restriction or listed). -/
def tool_allowed (reg : Registry) (state : AgentState) (name : String) : Bool :=
  regHas reg name &&
    (match state.allowed_tools with
     | none => true
     | some l => l.isEmpty || l.contains name)

/-! ## tool_exec.py -/

/-- The static PARAM_ALIASES table of tool_exec.py. -/
def PARAM_ALIASES : List (String × List (String × List String)) :=
  [("math_eval", [("expr", ["expression", "input", "text", "question", "q"])]),
   ("reverse_decode", [("text", ["input", "question", "q"])]),
   ("web_search", [("query", ["q", "question", "topic", "prompt", "text", "search"])]),
   ("wiki_lookup", [("title_or_query", ["query", "q", "title", "page", "topic", "text"])]),
   ("yt_transcript", [("url", ["video_url", "link"]), ("video_id", ["vid", "v"])]),
   ("asr", [("file_path", ["path", "filename", "file", "audio", "mp3"])]),
   ("chess_from_image", [("file_path", ["path", "filename", "file", "image", "img"])]),
   ("chess_engine", [("fen", ["position", "FEN", "board"])])]

/-- Alias table for one tool name (PARAM_ALIASES.get(tool_name, \x7b\x7d)). -/
def aliasesFor (toolName : String) : List (String × List String) :=
  match PARAM_ALIASES.find? (fun kv => kv.1 = toolName) with
  | some kv => kv.2
  | none => []

/-- Value of the first alias present in the raw mapping. -/
def firstAliasValue (raw : List (String × Json)) (alts : List String) : Option Json :=
  match alts with
  | [] => none
  | a :: rest =>
    match jget raw a with
    | some v => some v
    | none => firstAliasValue raw rest

/-- tool_exec._normalize_params: copy the raw mapping, fill each absent
canonical name from its first present alias, then either pass everything
through (**kwargs) or keep only the declared parameter names minus the
state parameter. -/
def normalizeParams (toolName : String) (fn : ToolSpec)
    (raw : List (String × Json)) : List (String × Json) :=
  let params :=
    (aliasesFor toolName).foldl
      (fun ps ca =>
        if jhas ps ca.1 then ps
        else
          match firstAliasValue raw ca.2 with
          | some v => jset ps ca.1 v
          | none => ps)
      raw
  if fn.acceptsKwargs then params
  else params.filter (fun kv => fn.paramNames.contains kv.1 && kv.1 ≠ "state")

/-- Reserved failure markers of tool_exec (observation prefixes that mark a
failed attempt). -/
def startsWithFailureMarker (obs : String) : Bool :=
  strStarts "ERROR" obs || strStarts "TOOL_ERROR" obs || strStarts "unknown" obs

/-- Truthiness of the decision's tool field (if tool_name:). -/
def tnTruthy (toolJ : Option Json) : Bool :=
  match toolJ with
  | none => false
  | some j => pyTruthy j

/-- Dispatch of the selected tool: observation text, success flag, error
text. The error constructor models an uncaught exception escaping the
node (only the unhashable-name corner). -/
def dispatch (reg : Registry) (s : AgentState) (toolJ : Option Json)
    (rawP : Json) : Except String (String × Bool × String) :=
  if tnTruthy toolJ then
    match toolJ with
    | some (.str t) =>
      match regGet reg t with
      | some fn =>
        match rawP with
        | .obj kvs =>
          match fn.run s (normalizeParams t fn kvs) with
          | .ok o => .ok (o, ! startsWithFailureMarker o, "")
          | .error e => .ok (s!"TOOL_ERROR: {t}: {e}", false, e)
        | _ =>
          let e := "cannot convert to dict"
          .ok (s!"TOOL_ERROR: {t}: {e}", false, e)
      | none => .ok (s!"ERROR: Unknown tool: {t}", false, "")
    | some (.arr _) => .error "TypeError: unhashable type"
    | some (.obj _) => .error "TypeError: unhashable type"
    | _ => .ok (s!"ERROR: Unknown tool: {pyStrOpt toolJ}", false, "")
  else .ok ("ERROR: Tool not specified.", false, "")

/-- The partial state update returned by tool_executor_node on its tool
path. -/
structure TEUpdate where
  scratchpad : List Turn
  next_action : Option Json
  step : Nat
  last_tool : Option Json
  plan_cursor : Nat
  no_progress_count : Nat
deriving Inhabited

/-- Does the previous turn repeat the same action name? (Python compares
the stored action string with the decision's tool value.) -/
def actionMatchesTool (prevAction : String) (toolJ : Option Json) : Bool :=
  match toolJ with
  | some (.str t) => prevAction = t
  | _ => false

/-- raw_params = na.get("params", \x7b\x7d) or \x7b\x7d. -/
def effParams (kvs : List (String × Json)) : Json :=
  let rawP0 := (jget kvs "params").getD Json.null
  if pyTruthy rawP0 then rawP0 else Json.obj []

/-- The Turn the executor records for one attempt. -/
def execTurn (kvs : List (String × Json)) (obs : String) (success : Bool)
    (err : String) : Turn :=
  let toolJ := jget kvs "tool"
  let whyJ := (jget kvs "why").getD (Json.str "")
  { thought :=
      if pyTruthy whyJ then pyStr whyJ
      else s!"Chose {pyStrOpt toolJ} with {pyStr (effParams kvs)}"
    action := if tnTruthy toolJ then pyStr (toolJ.getD Json.null) else "finish"
    params := effParams kvs
    observation := obs
    success := success
    error := err
    duration_ms := 0 }

/-- The executor's updated no-progress counter: bump only when the failed
attempt repeats the previous turn's action and observation exactly. -/
def execNoProg (s : AgentState) (toolJ : Option Json) (success : Bool)
    (obs : String) : Nat :=
  if ¬ success ∧ ¬ s.scratchpad.isEmpty then
    match s.scratchpad.getLast? with
    | some prev =>
      if actionMatchesTool prev.action toolJ ∧ prev.observation = obs then
        s.no_progress_count + 1
      else 0
    | none => 0
  else if success then 0 else s.no_progress_count

/-- The executor's own follow-up decision: the early-finish heuristic on
success, else the loop-abort heuristic at two repeated identical failures. -/
def execNextAction (s : AgentState) (toolJ : Option Json) (success : Bool)
    (obs : String) (noProg : Nat) : Option Json :=
  let na1 : Option Json :=
    if success ∧ s.early_stop then
      let ef := early_finish s.question obs s.answer
      if ef.1 then
        some (.obj [("finish", .str ef.2),
                    ("why", .str s!"Early-stop: confident final answer from {pyStrOpt toolJ}.")])
      else none
    else none
  if na1.isNone ∧ ¬ success ∧ noProg ≥ 2 then
    some (.obj [("finish", .str s!"Stopping due to repeated failures calling {pyStrOpt toolJ}: {obs}"),
                ("why", .str "loop prevention")])
  else na1

/-- The partial update the executor returns after a dispatch outcome. -/
def execUpdateCore (s : AgentState) (kvs : List (String × Json))
    (obs : String) (success : Bool) (err : String) : TEUpdate :=
  { scratchpad := s.scratchpad ++ [execTurn kvs obs success err]
    next_action := execNextAction s (jget kvs "tool") success obs
      (execNoProg s (jget kvs "tool") success obs)
    step := s.step + 1
    last_tool := jget kvs "tool"
    plan_cursor := s.plan_cursor + (if success then 1 else 0)
    no_progress_count := execNoProg s (jget kvs "tool") success obs }

/-- tool_executor_node past the finish passthrough, acting on the decision
dict kvs. -/
def execUpdate (reg : Registry) (s : AgentState)
    (kvs : List (String × Json)) : Except String TEUpdate :=
  match dispatch reg s (jget kvs "tool") (effParams kvs) with
  | .error e => .error e
  | .ok (obs, success, err) => .ok (execUpdateCore s kvs obs success err)

/-- Outcome of one tool_executor_node call: an uncaught exception, the
finish passthrough (only the answer key is updated), or the tool-path
partial update. -/
inductive TEOut where
  | crash (msg : String)
  | finishAnswer (ans : String)
  | update (u : TEUpdate)

/-- na = state.get("next_action") or \x7b\x7d. -/
def effNa (o : Option Json) : Json :=
  match o with
  | none => .obj []
  | some j => if pyTruthy j then j else .obj []

/-- tool_exec.tool_executor_node. -/
def tool_executor_node (reg : Registry) (s : AgentState) : TEOut :=
  match pyContains "finish" (effNa s.next_action) with
  | .error e => .crash e
  | .ok true =>
    match effNa s.next_action with
    | .obj kvs => .finishAnswer (pyStr ((jget kvs "finish").getD Json.null))
    | _ => .crash "TypeError: indices must be integers"
  | .ok false =>
    match effNa s.next_action with
    | .obj kvs =>
      match execUpdate reg s kvs with
      | .ok u => .update u
      | .error e => .crash e
    | _ => .crash "AttributeError: object has no attribute get"

/-- Merge the executor's partial update into the state (LangGraph merge of
the returned dict). -/
def mergeTE (s : AgentState) (u : TEUpdate) : AgentState :=
  { s with
    scratchpad := u.scratchpad
    next_action := u.next_action
    step := u.step
    last_tool := u.last_tool
    plan_cursor := u.plan_cursor
    no_progress_count := u.no_progress_count }

/-! ## controller.py -/

/-- A Finish decision dict as the controller builds them. -/
def finishDict (ans why : String) : Json :=
  .obj [("finish", .str ans), ("why", .str why)]

/-- Transition rule 1 of controller_node: trusted short-circuit on a
successful last turn when auto_finish_after_tool is set. -/
def ctrlRule1 (s : AgentState) : Option Json :=
  match s.scratchpad.getLast? with
  | none => none
  | some last =>
    if last.success ∧ s.auto_finish_after_tool then
      some (finishDict last.observation "Successful tool result.")
    else none

/-- Decode a raw oracle response: json.loads, then the embedded-payload
fallback whose second json.loads is outside any try and can itself raise,
then the parse-failure default. -/
def parseWithFallback (raw : String) (dflt : Json) : Except String Json :=
  match jsonLoads raw with
  | .ok j => .ok j
  | .error _ =>
    match extractBraces raw with
    | some sub => jsonLoads sub
    | none => .ok dflt

/-- Outcome of controller_node: the returned next_action value, or an
uncaught exception. -/
inductive CtrlOut where
  | okd (na : Json)
  | raise (msg : String)

/-- controller.controller_node. The oracle's raw message content stands in
for the LLM call; apiKey models whether OPENAI_API_KEY is set. -/
def controller_node (apiKey : Bool) (raw : String) (s : AgentState) : CtrlOut :=
  match ctrlRule1 s with
  | some d => .okd d
  | none =>
    if s.step ≥ s.max_steps then .okd (finishDict "Max steps reached." "Budget exhausted.")
    else if ¬ apiKey then .okd (finishDict "OPENAI_API_KEY missing." "LLM not configured.")
    else
      match parseWithFallback (pyStrip raw) (finishDict "Controller did not return JSON." "Parse error.") with
      | .ok d => .okd d
      | .error e => .raise e

/-! ## planner.py -/

/-- Outcome of planner_node: a plan with a reset cursor, or an uncaught
exception. -/
inductive PlannerOut where
  | okp (plan : List PlanStep) (cursor : Nat)
  | raise (msg : String)

/-- Convert the decoded steps array into PlanStep records; non-dict
elements raise like s.get would. -/
def buildPlanSteps (xs : List Json) : Except String (List PlanStep) :=
  match xs with
  | [] => .ok []
  | .obj kvs :: rest =>
    let goal := pyStrip (pyStr ((jget kvs "goal").getD (.str "")))
    let hint := pyStrip (pyStr ((jget kvs "tool_hint").getD (.str "")))
    let ph0 := (jget kvs "params_hint").getD Json.null
    let ph := if pyTruthy ph0 then ph0 else Json.obj []
    match buildPlanSteps rest with
    | .ok steps => .ok ({ goal := goal, tool_hint := hint, params_hint := ph } :: steps)
    | .error e => .error e
  | _ => .error "AttributeError: object has no attribute get"

/-- data.get("steps") or []. -/
def plannerSteps (kvs : List (String × Json)) : Json :=
  let stepsJ0 := (jget kvs "steps").getD Json.null
  if pyTruthy stepsJ0 then stepsJ0 else Json.arr []

/-- planner.planner_node. -/
def planner_node (apiKey : Bool) (raw : String) : PlannerOut :=
  if ¬ apiKey then .okp [] 0
  else
    match parseWithFallback (pyStrip raw) (.obj [("steps", .arr [])]) with
    | .error e => .raise e
    | .ok data =>
      match data with
      | .obj kvs =>
        match plannerSteps kvs with
        | .arr xs =>
          match buildPlanSteps (xs.take 4) with
          | .ok steps => .okp steps 0
          | .error e => .raise e
        | .str _ => .raise "AttributeError: object has no attribute get"
        | _ => .raise "TypeError: unsliceable sequence"
      | _ => .raise "AttributeError: object has no attribute get"

/-! ## finalize_node and graph.py -/

/-- Outcome of finalize_node. -/
inductive FinalOut where
  | okf (answer : String)
  | raise (msg : String)

/-- finalize.finalize_node: normalize the terminal Finish payload (or the
stored answer) against the question. -/
def finalize_node (s : AgentState) : FinalOut :=
  match s.next_action with
  | none => .raise "AttributeError: object has no attribute get"
  | some (.obj kvs) =>
    let v := (jget kvs "finish").getD Json.null
    let raw := if pyTruthy v then pyStr v else s.answer
    .okf (normalize_answer s.question raw)
  | some _ => .raise "AttributeError: object has no attribute get"

/-- graph.branch_from_controller: finalize iff "finish" is a key of the
effective next_action. -/
def branch_from_controller (s : AgentState) : Except String Bool :=
  pyContains "finish" (effNa s.next_action)

/-- config.MAX_STEPS_DEFAULT. -/
def MAX_STEPS_DEFAULT : Nat := 1

/-- graph.make_initial_state. -/
def make_initial_state (task_id question file_name : String) (max_steps : Nat)
    (allowed_tools : Option (List String)) : AgentState :=
  { task_id := task_id
    question := question
    file_name := file_name
    plan := []
    plan_cursor := 0
    scratchpad := []
    next_action := none
    step := 0
    max_steps := max_steps
    answer := ""
    allowed_tools := allowed_tools
    last_tool := none
    auto_finish_after_tool := false
    no_progress_count := 0
    early_stop := true }

/-- Result of running the compiled graph: normal completion at the
finalizer, an uncaught exception, or exhaustion of the iteration fuel. -/
inductive RunResult where
  | done (s : AgentState)
  | crashed (msg : String)
  | fuelOut

/-- The controller/tool-executor loop of the compiled graph. oracle k is
the raw content of the k-th controller LLM response; fuel bounds the
number of controller visits. -/
def loopCtrl (reg : Registry) (apiKey : Bool) (oracle : Nat → String) :
    Nat → Nat → AgentState → RunResult
  | _, 0, _ => .fuelOut
  | k, fuel + 1, s =>
    match controller_node apiKey (oracle k) s with
    | .raise e => .crashed e
    | .okd na =>
      let s1 : AgentState := { s with next_action := some na }
      match branch_from_controller s1 with
      | .error e => .crashed e
      | .ok true =>
        match finalize_node s1 with
        | .okf ans => .done { s1 with answer := ans }
        | .raise e => .crashed e
      | .ok false =>
        match tool_executor_node reg s1 with
        | .crash e => .crashed e
        | .finishAnswer a => loopCtrl reg apiKey oracle (k + 1) fuel { s1 with answer := a }
        | .update u => loopCtrl reg apiKey oracle (k + 1) fuel (mergeTE s1 u)

/-- The full compiled app: planner once, then the controller loop
(graph.build_controller_app). -/
def runApp (reg : Registry) (apiKey : Bool) (plannerRaw : String)
    (oracle : Nat → String) (fuel : Nat) (s0 : AgentState) : RunResult :=
  match planner_node apiKey plannerRaw with
  | .raise e => .crashed e
  | .okp plan cursor =>
    loopCtrl reg apiKey oracle 0 fuel { s0 with plan := plan, plan_cursor := cursor }

/-! ## General lemmas about the embedded nodes -/

/-- A successful execUpdate records exactly one more Turn, advances step by
exactly one, advances the cursor by at most one, and never changes the
budget-independent fields it does not return. -/
theorem execUpdate_fields (reg : Registry) (s : AgentState)
    (kvs : List (String × Json)) (u : TEUpdate)
    (h : execUpdate reg s kvs = .ok u) :
    u.step = s.step + 1 ∧
    u.scratchpad.length = s.scratchpad.length + 1 ∧
    u.plan_cursor ≤ s.plan_cursor + 1 := by
  unfold execUpdate at h
  rcases hd : dispatch reg s (jget kvs "tool") (effParams kvs) with e | ⟨obs, succ, err⟩ <;>
    rw [hd] at h
  · simp at h
  · simp only [Except.ok.injEq] at h
    subst h
    refine ⟨rfl, by simp [execUpdateCore], ?_⟩
    by_cases hs : succ = true <;> simp [execUpdateCore, hs]

/-- mergeTE keeps the fields the executor does not return. -/
theorem mergeTE_fields (s : AgentState) (u : TEUpdate) :
    (mergeTE s u).step = u.step ∧
    (mergeTE s u).max_steps = s.max_steps ∧
    (mergeTE s u).scratchpad = u.scratchpad ∧
    (mergeTE s u).plan_cursor = u.plan_cursor := by
  exact ⟨rfl, rfl, rfl, rfl⟩

/-- A finish dict is seen by the graph brancher as a finish decision. -/
theorem finishDict_contains (a w : String) :
    pyContains "finish" (effNa (some (finishDict a w))) = .ok true := by
  simp [finishDict, effNa, pyTruthy, pyContains, jhas]

/-- Rule 1 of the controller only ever produces finish dicts. -/
theorem ctrlRule1_finish (s : AgentState) (d : Json)
    (h : ctrlRule1 s = some d) : ∃ a w, d = finishDict a w := by
  unfold ctrlRule1 at h
  split at h
  · simp at h
  · split at h
    · injection h with h2
      exact ⟨_, _, h2.symm⟩
    · simp at h

/-- If the controller emitted a decision the brancher does not treat as a
finish, the decision came from the oracle-parse branch, so the budget was
not yet exhausted. -/
theorem controller_nonfinish_step_lt (apiKey : Bool) (raw : String)
    (s : AgentState) (na : Json)
    (h : controller_node apiKey raw s = .okd na)
    (hbr : pyContains "finish" (effNa (some na)) = .ok false) :
    s.step < s.max_steps := by
  unfold controller_node at h
  split at h
  · rename_i d hr
    obtain ⟨a, w, rfl⟩ := ctrlRule1_finish s d hr
    injection h with h1
    subst h1
    rw [finishDict_contains] at hbr
    simp at hbr
  · split at h
    · injection h with h1
      subst h1
      rw [finishDict_contains] at hbr
      simp at hbr
    · split at h
      · injection h with h1
        subst h1
        rw [finishDict_contains] at hbr
        simp at hbr
      · rename_i hge _
        omega

/-- When the brancher saw no finish decision, the executor takes its tool
path: it cannot take the finish passthrough. -/
theorem exec_no_finishAnswer (reg : Registry) (s : AgentState) (a : String)
    (hbr : branch_from_controller s = .ok false) :
    tool_executor_node reg s ≠ .finishAnswer a := by
  intro h
  unfold branch_from_controller at hbr
  unfold tool_executor_node at h
  rw [hbr] at h
  split at h <;> rename_i heq
  · simp at heq
  · simp at heq
  · split at h
    · split at h <;> simp at h
    · simp at h

/-- An executor update comes from execUpdate on the decision dict. -/
theorem exec_update_src (reg : Registry) (s : AgentState) (u : TEUpdate)
    (h : tool_executor_node reg s = .update u) :
    ∃ kvs, execUpdate reg s kvs = .ok u := by
  unfold tool_executor_node at h
  split at h <;> rename_i heq
  · simp at h
  · split at h <;> simp at h
  · split at h
    · rename_i kvs hna
      split at h <;> rename_i u0 hx
      · injection h with h1
        rw [h1] at hx
        exact ⟨kvs, hx⟩
      · simp at h
    · simp at h

/-- Fuel sufficiency for the controller loop: with fuel at least the
remaining budget plus one, the loop never exhausts its fuel, because every
round either terminates or increments step, and once step reaches
max_steps the controller only emits finishes. -/
theorem loopCtrl_no_fuelOut (reg : Registry) (apiKey : Bool) (oracle : Nat → String) :
    ∀ fuel k s, s.max_steps + 1 ≤ s.step + fuel → 1 ≤ fuel →
      loopCtrl reg apiKey oracle k fuel s ≠ .fuelOut := by
  intro fuel
  induction fuel with
  | zero => intro k s hbound h1; omega
  | succ f ih =>
    intro k s hbound _
    simp only [loopCtrl]
    split
    · simp
    · rename_i na hctrl
      split
      · simp
      · split
        · simp
        · simp
      · rename_i hbr
        split
        · simp
        · rename_i a hexec
          exact absurd hexec (exec_no_finishAnswer reg _ a hbr)
        · rename_i u hexec
          obtain ⟨kvs, hx⟩ := exec_update_src reg _ u hexec
          have hstep := (execUpdate_fields reg _ kvs u hx).1
          have hlt : s.step < s.max_steps := by
            apply controller_nonfinish_step_lt apiKey (oracle k) s na hctrl
            exact hbr
          apply ih
          · have h1 : (mergeTE { s with next_action := some na } u).max_steps = s.max_steps := rfl
            have h2 : (mergeTE { s with next_action := some na } u).step = u.step := rfl
            have h3 : u.step = s.step + 1 := hstep
            omega
          · omega

/-- Fuel max_steps + 1 suffices for the whole app from a fresh initial
state. -/
theorem runApp_no_fuelOut (tid q fn praw : String) (ms : Nat)
    (al : Option (List String)) (reg : Registry) (apiKey : Bool)
    (oracle : Nat → String) :
    runApp reg apiKey praw oracle (ms + 1) (make_initial_state tid q fn ms al) ≠ .fuelOut := by
  unfold runApp
  split
  · simp
  · apply loopCtrl_no_fuelOut
    · show ms + 1 ≤ 0 + (ms + 1)
      omega
    · omega

/-- Preservation of the scratchpad-length/step equality through the loop. -/
theorem loopCtrl_sp_step (reg : Registry) (apiKey : Bool) (oracle : Nat → String) :
    ∀ fuel k s t, s.scratchpad.length = s.step →
      loopCtrl reg apiKey oracle k fuel s = .done t →
      t.scratchpad.length = t.step := by
  intro fuel
  induction fuel with
  | zero =>
    intro k s t hP h
    simp [loopCtrl] at h
  | succ f ih =>
    intro k s t hP h
    simp only [loopCtrl] at h
    split at h
    · cases h
    · split at h
      · cases h
      · split at h
        · injection h with h1
          subst h1
          exact hP
        · cases h
      · split at h
        · cases h
        · refine ih _ _ _ ?_ h
          exact hP
        · rename_i u hexec
          obtain ⟨kvs, hx⟩ := exec_update_src _ _ _ hexec
          have hstep := (execUpdate_fields _ _ _ _ hx).1
          have hsp := (execUpdate_fields _ _ _ _ hx).2.1
          refine ih _ _ _ ?_ h
          show u.scratchpad.length = u.step
          have h1 : u.step = s.step + 1 := hstep
          have h2 : u.scratchpad.length = s.scratchpad.length + 1 := hsp
          omega

/-- Preservation of the cursor-below-step bound through the loop. -/
theorem loopCtrl_cursor_le (reg : Registry) (apiKey : Bool) (oracle : Nat → String) :
    ∀ fuel k s t, s.plan_cursor ≤ s.step →
      loopCtrl reg apiKey oracle k fuel s = .done t →
      t.plan_cursor ≤ t.step := by
  intro fuel
  induction fuel with
  | zero =>
    intro k s t hP h
    simp [loopCtrl] at h
  | succ f ih =>
    intro k s t hP h
    simp only [loopCtrl] at h
    split at h
    · cases h
    · split at h
      · cases h
      · split at h
        · injection h with h1
          subst h1
          exact hP
        · cases h
      · split at h
        · cases h
        · refine ih _ _ _ ?_ h
          exact hP
        · rename_i u hexec
          obtain ⟨kvs, hx⟩ := exec_update_src _ _ _ hexec
          have hstep := (execUpdate_fields _ _ _ _ hx).1
          have hcur := (execUpdate_fields _ _ _ _ hx).2.2
          refine ih _ _ _ ?_ h
          show u.plan_cursor ≤ u.step
          have h1 : u.step = s.step + 1 := hstep
          have h2 : u.plan_cursor ≤ s.plan_cursor + 1 := hcur
          omega

/-! ## Claim theorems -/

/-- C1: for every registry, oracle behaviour (including adversarial
non-JSON responses) and initial configuration, the controller/executor
loop of the compiled app terminates within max_steps + 1 controller visits
(it never exhausts that fuel: it reaches the finalizer or an explicitly
modelled uncaught exception); moreover whenever step has reached
max_steps (and the trusted rule 1 short-circuit does not apply) the
controller emits exactly the budget-exhausted Finish decision, and every
tool-path executor update increments step by exactly one. -/
theorem C1_loop_terminates_within_budget
    (tid q fn praw raw : String) (ms : Nat) (al : Option (List String))
    (reg : Registry) (apiKey : Bool) (oracle : Nat → String)
    (s : AgentState) (kvs : List (String × Json)) (u : TEUpdate) :
    runApp reg apiKey praw oracle (ms + 1) (make_initial_state tid q fn ms al) ≠ .fuelOut ∧
    (s.max_steps ≤ s.step → ctrlRule1 s = none →
      controller_node apiKey raw s = .okd (finishDict "Max steps reached." "Budget exhausted.")) ∧
    (execUpdate reg s kvs = .ok u → u.step = s.step + 1) := by
  refine ⟨runApp_no_fuelOut tid q fn praw ms al reg apiKey oracle, ?_, ?_⟩
  · intro hge hr1
    unfold controller_node
    rw [hr1]
    rw [if_pos hge]
  · intro hx
    exact (execUpdate_fields reg s kvs u hx).1

/-- The state the budget-exhausted witness run is examined at: one step
already taken on a budget of one. -/
def wBudgetState : AgentState :=
  { make_initial_state "tid" "zzz" "" 1 none with step := 1 }

/-- The executor update of the witness runs: an unknown tool name against
an empty registry. -/
def wExecUpdate : TEUpdate :=
  match execUpdate [] (make_initial_state "tid" "zzz" "" 1 none) [("tool", .str "t")] with
  | .ok u => u
  | .error _ => default

/-- Witness for C1 at a concrete configuration: an empty registry, a
budget of one step, an oracle that always answers with the same tool
call, and a concrete executor update; all hypotheses discharged. -/
theorem C1_loop_terminates_within_budget_witness :
    (runApp [] true "\x7b\"steps\": []\x7d"
        (fun _ => "\x7b\"tool\": \"t\", \"params\": \x7b\x7d, \"why\": \"w\"\x7d") 2
        (make_initial_state "tid" "zzz" "" 1 none) ≠ .fuelOut) ∧
    (wBudgetState.max_steps ≤ wBudgetState.step ∧ ctrlRule1 wBudgetState = none ∧
      controller_node true "junk" wBudgetState =
        .okd (finishDict "Max steps reached." "Budget exhausted.")) ∧
    (execUpdate [] (make_initial_state "tid" "zzz" "" 1 none) [("tool", .str "t")] =
        .ok wExecUpdate ∧
      wExecUpdate.step = (make_initial_state "tid" "zzz" "" 1 none).step + 1) := by
  refine ⟨?_, ⟨by decide, rfl, ?_⟩, ⟨rfl, ?_⟩⟩
  · exact (C1_loop_terminates_within_budget "tid" "zzz" "" "\x7b\"steps\": []\x7d" "junk" 1 none
      [] true (fun _ => "\x7b\"tool\": \"t\", \"params\": \x7b\x7d, \"why\": \"w\"\x7d")
      (make_initial_state "tid" "zzz" "" 1 none) [] default).1
  · exact ((C1_loop_terminates_within_budget "tid" "zzz" "" "x" "junk" 1 none
      [] true (fun _ => "x") wBudgetState [] default).2.1) (by decide) rfl
  · exact ((C1_loop_terminates_within_budget "tid" "zzz" "" "x" "junk" 1 none
      [] true (fun _ => "x")
      (make_initial_state "tid" "zzz" "" 1 none) [("tool", .str "t")] wExecUpdate).2.2) rfl

/-- C2: scratchpad length and step both start at zero, every tool-path
executor update appends exactly one Turn and increments step by exactly
one, and hence in every completed run the final scratchpad length equals
the final step counter. -/
theorem C2_scratchpad_length_tracks_step
    (tid q fn praw : String) (ms fuel : Nat) (al : Option (List String))
    (reg : Registry) (apiKey : Bool) (oracle : Nat → String)
    (s t : AgentState) (kvs : List (String × Json)) (u : TEUpdate) :
    (make_initial_state tid q fn ms al).scratchpad.length = 0 ∧
    (make_initial_state tid q fn ms al).step = 0 ∧
    (execUpdate reg s kvs = .ok u →
      u.scratchpad.length = s.scratchpad.length + 1 ∧ u.step = s.step + 1) ∧
    (runApp reg apiKey praw oracle fuel (make_initial_state tid q fn ms al) = .done t →
      t.scratchpad.length = t.step) := by
  refine ⟨rfl, rfl,
    fun hx => ⟨(execUpdate_fields _ _ _ _ hx).2.1, (execUpdate_fields _ _ _ _ hx).1⟩, ?_⟩
  intro hrun
  unfold runApp at hrun
  split at hrun
  · cases hrun
  · refine loopCtrl_sp_step reg apiKey oracle fuel 0 _ t ?_ hrun
    rfl

/-- The final state of the concrete witness run (one unknown-tool step,
then budget exhaustion). -/
def wC2Final : AgentState :=
  match runApp [] true "\x7b\"steps\": []\x7d"
      (fun _ => "\x7b\"tool\": \"t\", \"params\": \x7b\x7d, \"why\": \"w\"\x7d") 2
      (make_initial_state "tid" "zzz" "" 1 none) with
  | .done s => s
  | _ => default

/-- Witness for C2 at a concrete one-step run with an unknown tool; all
hypotheses discharged. -/
theorem C2_scratchpad_length_tracks_step_witness :
    (execUpdate [] (make_initial_state "tid" "zzz" "" 1 none) [("tool", .str "t")] =
        .ok wExecUpdate ∧
      wExecUpdate.scratchpad.length =
          (make_initial_state "tid" "zzz" "" 1 none).scratchpad.length + 1 ∧
      wExecUpdate.step = (make_initial_state "tid" "zzz" "" 1 none).step + 1) ∧
    (runApp [] true "\x7b\"steps\": []\x7d"
        (fun _ => "\x7b\"tool\": \"t\", \"params\": \x7b\x7d, \"why\": \"w\"\x7d") 2
        (make_initial_state "tid" "zzz" "" 1 none) = .done wC2Final ∧
      wC2Final.scratchpad.length = wC2Final.step) := by
  refine ⟨⟨rfl, ?_⟩, ⟨rfl, ?_⟩⟩
  · exact (C2_scratchpad_length_tracks_step "tid" "zzz" "" "x" 1 2 none [] true (fun _ => "x")
      (make_initial_state "tid" "zzz" "" 1 none) (make_initial_state "tid" "zzz" "" 1 none)
      [("tool", .str "t")] wExecUpdate).2.2.1 rfl
  · exact (C2_scratchpad_length_tracks_step "tid" "zzz" "" "\x7b\"steps\": []\x7d" 1 2 none
      [] true (fun _ => "\x7b\"tool\": \"t\", \"params\": \x7b\x7d, \"why\": \"w\"\x7d")
      (make_initial_state "tid" "zzz" "" 1 none) wC2Final [] default).2.2.2 rfl

/-- The planner always resets the plan cursor to zero. -/
theorem planner_cursor_zero (apiKey : Bool) (raw : String)
    (plan : List PlanStep) (c : Nat)
    (h : planner_node apiKey raw = .okp plan c) : c = 0 := by
  unfold planner_node at h
  split at h
  · injection h with h1 h2
    exact h2.symm
  · split at h
    · cases h
    · split at h
      · split at h
        · split at h
          · injection h with h1 h2
            exact h2.symm
          · cases h
        · cases h
        · cases h
      · cases h

/-- Registry for the cursor runs: one tool that answers plainly. -/
def regC9 : Registry := [("t", ⟨["state"], true, fun _ _ => .ok "hello"⟩)]

/-- Oracle for the cursor counterexample: one tool call, then a finish. -/
def oracleC9 : Nat → String := fun k =>
  match k with
  | 0 => "\x7b\"tool\": \"t\", \"params\": \x7b\x7d, \"why\": \"w\"\x7d"
  | _ => "\x7b\"finish\": \"x\", \"why\": \"y\"\x7d"

/-- A complete run in which the planner produced an empty plan and one
tool call succeeded. -/
def runC9 : RunResult :=
  runApp regC9 true "\x7b\"steps\": []\x7d" oracleC9 5
    (make_initial_state "tid" "zzz" "" 1 none)

/-- C9 counterexample: a complete run of the compiled app in which the
final plan_cursor is 1 while the plan has length 0, so plan_cursor
exceeds len(plan): the executor advances the cursor on success without
any bound check against the plan. -/
theorem C9_counterexample_cursor_exceeds_plan :
    (match runC9 with
     | .done s => (s.plan_cursor, s.plan.length, decide (s.plan.length < s.plan_cursor))
     | _ => (0, 0, false)) = (1, 0, true) := rfl

/-- C9 (amended): the executor increments plan_cursor by exactly one when
the attempt succeeds and leaves it unchanged on failure, and in every
completed run plan_cursor never exceeds step; it is not bounded by
len(plan). -/
theorem C9_cursor_advance
    (tid q fn praw : String) (ms fuel : Nat) (al : Option (List String))
    (reg : Registry) (apiKey : Bool) (oracle : Nat → String)
    (s t : AgentState) (kvs : List (String × Json))
    (obs err : String) (succ : Bool) :
    (dispatch reg s (jget kvs "tool") (effParams kvs) = .ok (obs, succ, err) →
      ∀ u, execUpdate reg s kvs = .ok u →
        u.plan_cursor = s.plan_cursor + (if succ then 1 else 0)) ∧
    (runApp reg apiKey praw oracle fuel (make_initial_state tid q fn ms al) = .done t →
      t.plan_cursor ≤ t.step) := by
  constructor
  · intro hd u hu
    unfold execUpdate at hu
    rw [hd] at hu
    injection hu with h1
    rw [← h1]
    rfl
  · intro hrun
    unfold runApp at hrun
    split at hrun
    · cases hrun
    · rename_i plan0 c0 hpl
      have hc : c0 = 0 := planner_cursor_zero apiKey praw plan0 c0 hpl
      subst hc
      refine loopCtrl_cursor_le reg apiKey oracle fuel 0 _ t ?_ hrun
      exact Nat.le_refl 0

/-- The executor update of the successful witness call. -/
def wC9Update : TEUpdate :=
  match execUpdate regC9 (make_initial_state "tid" "zzz" "" 1 none) [("tool", .str "t")] with
  | .ok u => u
  | .error _ => default

/-- The final state of the cursor witness run. -/
def wC9Final : AgentState :=
  match runC9 with
  | .done s => s
  | _ => default

/-- Witness for the amended C9 at a concrete successful call and the
concrete run; all hypotheses discharged. -/
theorem C9_cursor_advance_witness :
    (dispatch regC9 (make_initial_state "tid" "zzz" "" 1 none)
        (jget [("tool", .str "t")] "tool") (effParams [("tool", .str "t")]) =
        .ok ("hello", true, "") ∧
      execUpdate regC9 (make_initial_state "tid" "zzz" "" 1 none) [("tool", .str "t")] =
        .ok wC9Update ∧
      wC9Update.plan_cursor =
        (make_initial_state "tid" "zzz" "" 1 none).plan_cursor + (if true then 1 else 0)) ∧
    (runC9 = .done wC9Final ∧ wC9Final.plan_cursor ≤ wC9Final.step) := by
  refine ⟨⟨rfl, rfl, ?_⟩, ⟨rfl, ?_⟩⟩
  · exact (C9_cursor_advance "tid" "zzz" "" "x" 1 5 none regC9 true (fun _ => "x")
      (make_initial_state "tid" "zzz" "" 1 none) (make_initial_state "tid" "zzz" "" 1 none)
      [("tool", .str "t")] "hello" "" true).1 rfl wC9Update rfl
  · exact (C9_cursor_advance "tid" "zzz" "" "\x7b\"steps\": []\x7d" 1 5 none regC9 true
      oracleC9 (make_initial_state "tid" "zzz" "" 1 none) wC9Final [] "" "" true).2 rfl

/-- Registry for the loop-abort runs: a failing tool and a succeeding
tool. -/
def regC3 : Registry :=
  [("w", ⟨["state"], true, fun _ _ => .ok "ERROR: boom"⟩),
   ("v", ⟨["state"], true, fun _ _ => .ok "hello"⟩)]

/-- Oracle for the loop-abort counterexample: the same failing call twice,
then a different tool, then a finish. -/
def oracleC3 : Nat → String := fun k =>
  match k with
  | 0 => "\x7b\"tool\": \"w\", \"params\": \x7b\x7d, \"why\": \"w1\"\x7d"
  | 1 => "\x7b\"tool\": \"w\", \"params\": \x7b\x7d, \"why\": \"w1\"\x7d"
  | 2 => "\x7b\"tool\": \"v\", \"params\": \x7b\x7d, \"why\": \"w2\"\x7d"
  | _ => "\x7b\"finish\": \"x\", \"why\": \"y\"\x7d"

/-- A complete run with two consecutive identical failing Turns followed
by a different action. -/
def runC3 : RunResult :=
  runApp regC3 true "\x7b\"steps\": []\x7d" oracleC3 9
    (make_initial_state "tid" "give the ioc country code" "" 5 none)

/-- C3 counterexample: after two consecutive identical failing Turns the
next Tool Executor iteration ran a different action; the counter reset to
0 (not ≥ 2) and no loop-abort Finish was emitted — the run ended through
the oracle's own finish with answer x. -/
theorem C3_counterexample_third_iteration_not_forced :
    (match runC3 with
     | .done s =>
       (s.scratchpad.map (fun (t : Turn) => (t.action, t.observation, t.success)),
        s.no_progress_count, s.answer)
     | _ => ([], 99, "")) =
    ([("w", "ERROR: boom", false), ("w", "ERROR: boom", false), ("v", "hello", true)],
      0, "x") := rfl

/-- C3 (amended): after two consecutive identical failing Turns the state
carries no_progress_count ≥ 1, and if the NEXT executor iteration again
fails with the same action name and the same observation text, it yields
no_progress_count ≥ 2 and emits a loop-abort Finish decision in its
returned next_action, regardless of the remaining step budget (no budget
hypothesis is needed). -/
theorem C3_loop_abort_on_third_identical_failure
    (reg : Registry) (s : AgentState) (kvs : List (String × Json))
    (obs err : String) (prev : Turn)
    (hd : dispatch reg s (jget kvs "tool") (effParams kvs) = .ok (obs, false, err))
    (hprev : s.scratchpad.getLast? = some prev)
    (hact : actionMatchesTool prev.action (jget kvs "tool") = true)
    (hobs : prev.observation = obs)
    (hn : 1 ≤ s.no_progress_count) :
    ∀ u, execUpdate reg s kvs = .ok u →
      u.no_progress_count = s.no_progress_count + 1 ∧
      2 ≤ u.no_progress_count ∧
      pyContains "finish" (effNa u.next_action) = .ok true := by
  intro u hu
  unfold execUpdate at hu
  rw [hd] at hu
  injection hu with h1
  subst h1
  have hne : s.scratchpad.isEmpty = false := by
    cases hsp : s.scratchpad with
    | nil => rw [hsp] at hprev; cases hprev
    | cons a l => rfl
  have hnp : execNoProg s (jget kvs "tool") false obs = s.no_progress_count + 1 := by
    unfold execNoProg
    rw [hne, hprev]
    simp [hact, hobs]
  refine ⟨hnp, ?_, ?_⟩
  · show 2 ≤ execNoProg s (jget kvs "tool") false obs
    rw [hnp]
    omega
  · show pyContains "finish" (effNa (execNextAction s (jget kvs "tool") false obs
      (execNoProg s (jget kvs "tool") false obs))) = .ok true
    unfold execNextAction
    rw [hnp]
    have hge : 2 ≤ s.no_progress_count + 1 := by omega
    simp [hge, effNa, pyTruthy, pyContains, jhas]

/-- The previous failing Turn of the loop-abort witness. -/
def prevC3 : Turn :=
  { thought := "t0", action := "w", params := Json.obj [],
    observation := "ERROR: boom", success := false, error := "", duration_ms := 0 }

/-- State for the loop-abort witness: one failing Turn already recorded
and a no-progress count of 1 (as after two identical failures). -/
def sC3 : AgentState :=
  { make_initial_state "tid" "zzz" "" 5 none with
    scratchpad := [prevC3]
    no_progress_count := 1
    step := 2 }

/-- Registry for the loop-abort witness: only the failing tool. -/
def regC3w : Registry := [("w", ⟨["state"], true, fun _ _ => .ok "ERROR: boom"⟩)]

/-- Decision dict for the loop-abort witness: the same failing call again. -/
def kvsC3 : List (String × Json) := [("tool", .str "w"), ("why", .str "again")]

/-- The executor update produced by the witness call. -/
def wC3Update : TEUpdate :=
  match execUpdate regC3w sC3 kvsC3 with
  | .ok u => u
  | .error _ => default

/-- Witness for the amended C3: the third identical failure bumps the
counter to 2 and the returned next_action is a Finish decision; all
hypotheses discharged at the concrete input. -/
theorem C3_loop_abort_on_third_identical_failure_witness :
    (dispatch regC3w sC3 (jget kvsC3 "tool") (effParams kvsC3) =
        .ok ("ERROR: boom", false, "") ∧
      sC3.scratchpad.getLast? = some prevC3 ∧
      actionMatchesTool prevC3.action (jget kvsC3 "tool") = true ∧
      prevC3.observation = "ERROR: boom" ∧
      1 ≤ sC3.no_progress_count) ∧
    (execUpdate regC3w sC3 kvsC3 = .ok wC3Update ∧
      wC3Update.no_progress_count = sC3.no_progress_count + 1 ∧
      2 ≤ wC3Update.no_progress_count ∧
      pyContains "finish" (effNa wC3Update.next_action) = .ok true) := by
  refine ⟨⟨rfl, rfl, rfl, rfl, by decide⟩, ⟨rfl, ?_⟩⟩
  exact C3_loop_abort_on_third_identical_failure regC3w sC3 kvsC3 "ERROR: boom" "" prevC3
    rfl rfl rfl rfl (by decide) wC3Update rfl

/-- Registry for the allowed-tools runs: two plain tools. -/
def regC4 : Registry :=
  [("a", ⟨["state"], true, fun _ _ => .ok "A-OUT"⟩),
   ("b", ⟨["state"], true, fun _ _ => .ok "B-OUT"⟩)]

/-- Oracle for the allowed-tools counterexample: call the tool that the
allowlist does not contain, then finish. -/
def oracleC4 : Nat → String := fun k =>
  match k with
  | 0 => "\x7b\"tool\": \"b\", \"params\": \x7b\x7d, \"why\": \"w\"\x7d"
  | _ => "\x7b\"finish\": \"done\", \"why\": \"y\"\x7d"

/-- A complete run with allowed_tools = [a] in which the oracle asks for
tool b. -/
def runC4 : RunResult :=
  runApp regC4 true "\x7b\"steps\": []\x7d" oracleC4 5
    (make_initial_state "tid" "zzz" "" 3 (some ["a"]))

/-- C4 counterexample: in a run restricted to allowed_tools = [a], the
executor still dispatched the registered tool b (its Turn records b's own
output as a success) even though tool_allowed rejects b for that state:
the executor never consults the allowlist. -/
theorem C4_counterexample_disallowed_tool_dispatched :
    (match runC4 with
     | .done s =>
       (s.scratchpad.map (fun (t : Turn) => (t.action, t.observation, t.success)),
        tool_allowed regC4 s "b", s.answer)
     | _ => ([], true, "")) =
    ([("b", "B-OUT", true)], false, "done") := rfl

/-- C4 (amended): tool_allowed is true iff the name is registered and the
allowlist is absent, empty, or contains it — but the Tool Executor does
not enforce it: dispatch runs any registered tool regardless of the
state's allowed_tools restriction, as the concrete dispatch against a
state whose allowlist excludes the tool shows. -/
theorem C4_tool_allowed_iff (reg : Registry) (s : AgentState) (name : String) :
    (tool_allowed reg s name = true ↔
      regHas reg name = true ∧
        (s.allowed_tools = none ∨ s.allowed_tools = some [] ∨
          ∃ l, s.allowed_tools = some l ∧ name ∈ l)) ∧
    (dispatch regC4 (make_initial_state "tid" "zzz" "" 3 (some ["a"]))
        (some (.str "b")) (.obj []) = .ok ("B-OUT", true, "") ∧
      tool_allowed regC4 (make_initial_state "tid" "zzz" "" 3 (some ["a"])) "b" = false) := by
  refine ⟨?_, rfl, rfl⟩
  unfold tool_allowed
  cases hal : s.allowed_tools with
  | none =>
    simp
  | some l =>
    cases l with
    | nil => simp
    | cons x xs =>
      simp only [List.isEmpty_cons, Bool.false_or, Bool.and_eq_true]
      constructor
      · rintro ⟨hreg, hc⟩
        refine ⟨hreg, Or.inr (Or.inr ⟨x :: xs, rfl, ?_⟩)⟩
        simpa [List.contains, List.elem_iff] using hc
      · rintro ⟨hreg, h | h | ⟨l2, hl2, hmem⟩⟩
        · cases h
        · cases h
        · refine ⟨hreg, ?_⟩
          injection hl2 with h3
          subst h3
          simpa [List.contains, List.elem_iff] using hmem

/-- C5 counterexample: a numeric-cue question whose numeric extraction
fails is NOT returned unchanged — the later CSV rule still applies and
re-orders the text. -/
theorem C5_counterexample_numeric_cue_falls_through :
    numericCue (pyLower "how many fruits? list them comma separated in ascending order") = true ∧
    numericOnly (pyStrip "pear, apple") = none ∧
    normalize_answer "how many fruits? list them comma separated in ascending order"
      "pear, apple" = "apple, pear" ∧
    normalize_answer "how many fruits? list them comma separated in ascending order"
      "pear, apple" ≠ "pear, apple" := by
  refine ⟨rfl, rfl, rfl, ?_⟩
  decide

/-- C5 (amended): rules are tried in the fixed source order and the first
rule whose extraction succeeds wins; for a numeric-cue question the
normalizer returns the extracted numeric text when extraction succeeds,
while on extraction failure evaluation falls through to the later rules
(for example the CSV rule), and only when no later rule applies is the
stripped text returned unchanged. -/
theorem C5_numeric_rule_first_match (q a n : String) :
    (numericCue (pyLower q) = true → numericOnly (pyStrip a) = some n →
      normalize_answer q a = n) ∧
    (numericCue (pyLower q) = true → numericOnly (pyStrip a) = none →
      substr "give only the first name" (pyLower q) = false →
      substr "ioc country code" (pyLower q) = false →
      csvCueNorm (pyLower q) = true →
      normalize_answer q a = csvNormalize (pyStrip a) (alphaCue (pyLower q))) ∧
    (numericCue (pyLower q) = true → numericOnly (pyStrip a) = none →
      substr "give only the first name" (pyLower q) = false →
      substr "ioc country code" (pyLower q) = false →
      csvCueNorm (pyLower q) = false → usdCue (pyLower q) = false →
      sanCue (pyLower q) = false →
      normalize_answer q a = pyStrip a) := by
  refine ⟨?_, ?_, ?_⟩
  · intro hq hn
    simp only [normalize_answer, hq, if_true, hn]
  · intro hq hn h1 h2 h3
    simp only [normalize_answer, hq, if_true, hn, normalizeRest, h1, h2, normalizeRest2, h3,
      Bool.false_eq_true, if_false]
  · intro hq hn h1 h2 h3 h4 h5
    simp only [normalize_answer, hq, if_true, hn, normalizeRest, h1, h2, normalizeRest2, h3,
      normalizeRest3, h4, h5, Bool.false_eq_true, if_false]

/-- Witness for the amended C5 at three concrete question/answer pairs;
all hypotheses discharged. -/
theorem C5_numeric_rule_first_match_witness :
    (numericCue (pyLower "how many pets?") = true ∧
      numericOnly (pyStrip "3 cats") = some "3" ∧
      normalize_answer "how many pets?" "3 cats" = "3") ∧
    (numericCue (pyLower "how many fruits? alphabetize them") = true ∧
      numericOnly (pyStrip "pear; kiwi") = none ∧
      csvCueNorm (pyLower "how many fruits? alphabetize them") = true ∧
      normalize_answer "how many fruits? alphabetize them" "pear; kiwi" =
        csvNormalize (pyStrip "pear; kiwi") (alphaCue (pyLower "how many fruits? alphabetize them"))) ∧
    (numericCue (pyLower "how many?") = true ∧
      numericOnly (pyStrip " abc def ") = none ∧
      normalize_answer "how many?" " abc def " = pyStrip " abc def ") := by
  refine ⟨⟨rfl, rfl, ?_⟩, ⟨rfl, rfl, rfl, ?_⟩, ⟨rfl, rfl, ?_⟩⟩
  · exact (C5_numeric_rule_first_match "how many pets?" "3 cats" "3").1 rfl rfl
  · exact (C5_numeric_rule_first_match "how many fruits? alphabetize them" "pear; kiwi" "").2.1
      rfl rfl rfl rfl rfl
  · exact (C5_numeric_rule_first_match "how many?" " abc def " "").2.2 rfl rfl rfl rfl rfl rfl rfl

/-- C6 counterexample: on the IOC round-trip example the normalizer does
not return ITA — the first standalone three-uppercase-letter token of the
upper-cased text is THE, so that is what the IOC rule extracts. -/
theorem C6_counterexample_ioc_roundtrip :
    normalize_answer "what is the ioc country code of the team?"
      "The answer is ITA, I believe" = "THE" ∧
    normalize_answer "what is the ioc country code of the team?"
      "The answer is ITA, I believe" ≠ "ITA" := by
  refine ⟨rfl, ?_⟩
  decide

/-- C6 (amended): the round-trip examples as the code computes them — the
spider example gives 8, the CSV example sorts case-insensitively, the IOC
example gives THE (not ITA), and the USD example gives $19.50. -/
theorem C6_roundtrip_examples :
    normalize_answer "how many legs does a spider have?" "eight" = "8" ∧
    normalize_answer "give the fruits comma separated in ascending order"
      "banana, Apple, cherry" = "Apple, banana, cherry" ∧
    normalize_answer "what is the ioc country code of the team?"
      "The answer is ITA, I believe" = "THE" ∧
    normalize_answer "how much will it cost in usd rounded to two decimals?"
      "about 19.5" = "$19.50" :=
  ⟨rfl, rfl, rfl, rfl⟩

/-- A capability shaped like the repository's code_run tool: declared
parameters state, file_path, timeout and no **kwargs. -/
def specC7 : ToolSpec := ⟨["state", "file_path", "timeout"], false, fun _ _ => .ok ""⟩

/-- C7: with the real math_eval alias table, raw params q: 2+2 reconcile
to contain expr: 2+2 (whether or not the capability takes **kwargs); the
first present alias in declared priority wins (expression beats q); keys
not among a non-kwargs capability's declared parameter names are dropped,
and every surviving key is a declared non-state parameter name — never an
error. -/
theorem C7_param_reconciliation (spec : ToolSpec) (name k : String) (v : Json)
    (raw : List (String × Json)) :
    jget (normalizeParams "math_eval" ⟨["state", "expr"], true, fun _ _ => .ok ""⟩
      [("q", .str "2+2")]) "expr" = some (.str "2+2") ∧
    jget (normalizeParams "math_eval" ⟨["state", "expr"], false, fun _ _ => .ok ""⟩
      [("q", .str "2+2")]) "expr" = some (.str "2+2") ∧
    jget (normalizeParams "math_eval" ⟨["state", "expr"], false, fun _ _ => .ok ""⟩
      [("q", .str "2+2")]) "q" = none ∧
    jget (normalizeParams "math_eval" ⟨["state", "expr"], true, fun _ _ => .ok ""⟩
      [("expression", .str "A"), ("q", .str "B")]) "expr" = some (.str "A") ∧
    (spec.acceptsKwargs = false →
      (k, v) ∈ normalizeParams name spec raw → k ∈ spec.paramNames ∧ k ≠ "state") := by
  refine ⟨rfl, rfl, rfl, rfl, ?_⟩
  intro hkw hmem
  unfold normalizeParams at hmem
  rw [hkw] at hmem
  simp only [Bool.false_eq_true, if_false] at hmem
  rw [List.mem_filter] at hmem
  obtain ⟨_, hpred⟩ := hmem
  simp only [Bool.and_eq_true, decide_eq_true_eq] at hpred
  exact ⟨List.elem_iff.mp hpred.1, hpred.2⟩

/-- Witness for C7: the surviving key of a concrete non-kwargs dispatch is
a declared non-state parameter; all hypotheses discharged. -/
theorem C7_param_reconciliation_witness :
    specC7.acceptsKwargs = false ∧
    ("file_path", Json.str "f") ∈
      normalizeParams "code_run" specC7 [("file_path", .str "f"), ("junk", .str "z")] ∧
    ("file_path" ∈ specC7.paramNames ∧ "file_path" ≠ "state") := by
  have hm : ("file_path", Json.str "f") ∈
      normalizeParams "code_run" specC7 [("file_path", .str "f"), ("junk", .str "z")] := by
    show ("file_path", Json.str "f") ∈ [("file_path", Json.str "f")]
    exact List.mem_singleton.mpr rfl
  exact ⟨rfl, hm,
    (C7_param_reconciliation specC7 "code_run" "file_path" (Json.str "f")
      [("file_path", .str "f"), ("junk", .str "z")]).2.2.2.2 rfl hm⟩

/-- C8 (code-bug evidence): when json.loads fails but an embedded
brace-delimited payload is found, the second json.loads runs outside any
try, so an invalid payload raises out of both planner_node and
controller_node; recovery only works when no brace pair is found at all
(empty plan, and the parse-failure Finish). -/
theorem C8_embedded_payload_parse_raises :
    (match planner_node true "\x7boops\x7d" with
     | .raise _ => true
     | _ => false) = true ∧
    (match controller_node true "\x7boops\x7d" (make_initial_state "t" "q" "" 5 none) with
     | .raise _ => true
     | _ => false) = true ∧
    planner_node true "no structured payload here" = .okp [] 0 ∧
    controller_node true "no structured payload here" (make_initial_state "t" "q" "" 5 none) =
      .okd (finishDict "Controller did not return JSON." "Parse error.") :=
  ⟨rfl, rfl, rfl, rfl⟩

/-- Being a prefix is stable under extending the big list on the right. -/
theorem isPrefixOf_append_left (l m r : List Char) (h : l.isPrefixOf m = true) :
    l.isPrefixOf (m ++ r) = true := by
  induction l generalizing m with
  | nil => simp [List.isPrefixOf]
  | cons a as ih =>
    cases m with
    | nil => simp [List.isPrefixOf] at h
    | cons b bs =>
      simp only [List.isPrefixOf, List.cons_append, Bool.and_eq_true, beq_iff_eq] at h ⊢
      exact ⟨h.1, ih bs h.2⟩

/-- startswith is stable under appending on the right. -/
theorem strStarts_append_left (p a b : String) (h : strStarts p a = true) :
    strStarts p (a ++ b) = true := by
  unfold strStarts at h ⊢
  exact isPrefixOf_append_left _ _ _ h

/-- The synthesized exception observation carries the TOOL_ERROR marker. -/
theorem marker_toolError (t e : String) :
    startsWithFailureMarker (s!"TOOL_ERROR: {t}: {e}") = true := by
  have h1 : strStarts "TOOL_ERROR" (s!"TOOL_ERROR: {t}: {e}") = true := by
    show strStarts "TOOL_ERROR" ("TOOL_ERROR: " ++ t ++ ": " ++ e ++ "") = true
    apply strStarts_append_left
    apply strStarts_append_left
    apply strStarts_append_left
    apply strStarts_append_left
    decide
  simp [startsWithFailureMarker, h1]

/-- The unknown-tool observation carries the ERROR marker. -/
theorem marker_unknownTool (t : String) :
    startsWithFailureMarker (s!"ERROR: Unknown tool: {t}") = true := by
  have h1 : strStarts "ERROR" (s!"ERROR: Unknown tool: {t}") = true := by
    show strStarts "ERROR" ("ERROR: Unknown tool: " ++ t ++ "") = true
    apply strStarts_append_left
    apply strStarts_append_left
    decide
  simp [startsWithFailureMarker, h1]

/-- Every recorded dispatch outcome satisfies: the success flag is true
exactly when the observation does not begin with a reserved failure
marker (ERROR, TOOL_ERROR, or the lowercase word unknown). -/
theorem dispatch_success_iff (reg : Registry) (s : AgentState)
    (toolJ : Option Json) (rawP : Json) (obs err : String) (succ : Bool)
    (hd : dispatch reg s toolJ rawP = .ok (obs, succ, err)) :
    succ = ! startsWithFailureMarker obs := by
  unfold dispatch at hd
  split at hd
  · split at hd
    · split at hd
      · split at hd
        · split at hd
          · rename_i o hrun
            injection hd with h1
            simp only [Prod.mk.injEq] at h1
            obtain ⟨ho, hs, he⟩ := h1
            subst ho
            subst hs
            rfl
          · rename_i e hrun
            injection hd with h1
            simp only [Prod.mk.injEq] at h1
            obtain ⟨ho, hs, he⟩ := h1
            subst ho
            subst hs
            rw [marker_toolError]
            rfl
        · injection hd with h1
          simp only [Prod.mk.injEq] at h1
          obtain ⟨ho, hs, he⟩ := h1
          subst ho
          subst hs
          rw [marker_toolError]
          rfl
      · injection hd with h1
        simp only [Prod.mk.injEq] at h1
        obtain ⟨ho, hs, he⟩ := h1
        subst ho
        subst hs
        rw [marker_unknownTool]
        rfl
    · cases hd
    · cases hd
    · injection hd with h1
      simp only [Prod.mk.injEq] at h1
      obtain ⟨ho, hs, he⟩ := h1
      subst ho
      subst hs
      rw [marker_unknownTool]
      rfl
  · injection hd with h1
    simp only [Prod.mk.injEq] at h1
    obtain ⟨ho, hs, he⟩ := h1
    subst ho
    subst hs
    decide

/-- C10: the executor classifies an attempt as failed exactly when the
observation begins with ERROR, TOOL_ERROR, or the lowercase word unknown;
the recorded Turn carries that flag, a failed flag blocks the plan-cursor
advance, and an identical repeat of the previous failing turn feeds the
no-progress counter; in particular a capability output beginning with
unknown is recorded as a failure. -/
theorem C10_failure_classification
    (reg : Registry) (s : AgentState) (kvs : List (String × Json))
    (obs err : String) (succ : Bool) (prev : Turn) :
    (dispatch reg s (jget kvs "tool") (effParams kvs) = .ok (obs, succ, err) →
      ∀ u, execUpdate reg s kvs = .ok u →
        u.scratchpad.getLast? = some (execTurn kvs obs succ err) ∧
        (execTurn kvs obs succ err).success = (! startsWithFailureMarker obs) ∧
        (execTurn kvs obs succ err).observation = obs ∧
        u.plan_cursor = s.plan_cursor + (if (execTurn kvs obs succ err).success then 1 else 0) ∧
        ((execTurn kvs obs succ err).success = false →
          s.scratchpad.getLast? = some prev →
          actionMatchesTool prev.action (jget kvs "tool") = true →
          prev.observation = obs →
          u.no_progress_count = s.no_progress_count + 1)) ∧
    dispatch [("u1", ⟨["state"], true, fun _ _ => .ok "unknown stuff"⟩)] s
      (some (.str "u1")) (.obj []) = .ok ("unknown stuff", false, "") := by
  constructor
  · intro hd u hu
    have hsucc : succ = ! startsWithFailureMarker obs :=
      dispatch_success_iff reg s (jget kvs "tool") (effParams kvs) obs err succ hd
    unfold execUpdate at hu
    rw [hd] at hu
    injection hu with h1
    subst h1
    have hts : (execTurn kvs obs succ err).success = succ := rfl
    refine ⟨?_, by rw [hts, hsucc], rfl, ?_, ?_⟩
    · show (s.scratchpad ++ [execTurn kvs obs succ err]).getLast? =
        some (execTurn kvs obs succ err)
      exact List.getLast?_concat _
    · rw [hts]
      rfl
    · intro hfail hprev hact hobs
      rw [hts] at hfail
      subst hfail
      have hne : s.scratchpad.isEmpty = false := by
        cases hsp : s.scratchpad with
        | nil => rw [hsp] at hprev; cases hprev
        | cons a l => rfl
      show execNoProg s (jget kvs "tool") false obs = s.no_progress_count + 1
      unfold execNoProg
      rw [hne, hprev]
      simp [hact, hobs]
  · rfl

/-- Registry for the unknown-prefix witness. -/
def regC10 : Registry := [("u1", ⟨["state"], true, fun _ _ => .ok "unknown stuff"⟩)]

/-- The previous identical failing Turn of the witness. -/
def prevC10 : Turn :=
  { thought := "t0", action := "u1", params := Json.obj [],
    observation := "unknown stuff", success := false, error := "", duration_ms := 0 }

/-- State for the unknown-prefix witness. -/
def sC10 : AgentState :=
  { make_initial_state "tid" "zzz" "" 5 none with
    scratchpad := [prevC10]
    no_progress_count := 0
    step := 1 }

/-- Decision dict of the witness. -/
def kvsC10 : List (String × Json) := [("tool", .str "u1")]

/-- The executor update of the witness call. -/
def wC10Update : TEUpdate :=
  match execUpdate regC10 sC10 kvsC10 with
  | .ok u => u
  | .error _ => default

/-- Witness for C10: a capability output beginning with unknown is a
failed Turn, the cursor does not advance, and the repeat bumps the
counter; all hypotheses discharged. -/
theorem C10_failure_classification_witness :
    (dispatch regC10 sC10 (jget kvsC10 "tool") (effParams kvsC10) =
        .ok ("unknown stuff", false, "") ∧
      execUpdate regC10 sC10 kvsC10 = .ok wC10Update) ∧
    ((execTurn kvsC10 "unknown stuff" false "").success =
        (! startsWithFailureMarker "unknown stuff") ∧
      wC10Update.plan_cursor = sC10.plan_cursor + (if (execTurn kvsC10 "unknown stuff" false "").success then 1 else 0) ∧
      wC10Update.no_progress_count = sC10.no_progress_count + 1) := by
  have hmain := (C10_failure_classification regC10 sC10 kvsC10 "unknown stuff" "" false
    prevC10).1 rfl wC10Update rfl
  exact ⟨⟨rfl, rfl⟩, hmain.2.1, hmain.2.2.2.1,
    hmain.2.2.2.2 rfl rfl rfl rfl⟩
